import Mathlib

/-!
Verification of the receipt-normalization pipeline of the smart-expenses
backend (`src/routes/ai.ts`).  JavaScript numbers are modelled by `JsNum`
(a finite rational, NaN, or a signed infinity); loosely-typed JSON values
by `JsValue`.  Each definition below is a direct translation of the
corresponding function in `src/routes/ai.ts`.
-/

/-- A JavaScript `number`: a finite value (modelled exactly as a rational;
IEEE-754 rounding is not modelled, which is sound for the integral and
short-decimal constants the claims use), `NaN`, or a signed infinity. -/
inductive JsNum where
  | fin (q : ℚ)
  | nan
  | posInf
  | negInf
deriving DecidableEq

/-- `Number.isFinite` on a value already known to be a number. -/
def JsNum.isFinite : JsNum → Bool
  | .fin _ => true
  | _ => false

/-- The rational carried by a finite `JsNum` (0 for the non-finite ones;
only ever used behind an `isFinite` guard, mirroring the source). -/
def JsNum.toQ : JsNum → ℚ
  | .fin q => q
  | _ => 0

/-- An arbitrary JavaScript value as it can appear in parsed JSON:
a number, a string, a boolean, `null`, `undefined`, an object or an array
(the latter two are opaque: `asNumberOrNull` rejects them wholesale). -/
inductive JsValue where
  | num (n : JsNum)
  | str (s : String)
  | boolean (b : Bool)
  | null
  | undef
  | obj
  | arr
deriving DecidableEq

/-- `typeof v === "number" && Number.isFinite(v)`: the finite numeric
content of a JS value, if any. -/
def finQ : JsValue → Option ℚ
  | .num (.fin q) => some q
  | _ => none

/-- Nullish coalescing `v ?? undefined`: `null`/`undefined` become absent,
everything else passes through. -/
def jsCoalesceU : JsValue → Option JsValue
  | .null => none
  | .undef => none
  | v => some v

/-- The whitespace stripped by `String.prototype.trim` (restricted to the
ASCII whitespace that can occur in the strings this pipeline handles). -/
def isJsSpace (c : Char) : Bool :=
  c == ' ' || c == '\t' || c == '\n' || c == '\r'

/-- Does the text begin with the pattern?  (`pat` first, text second.) -/
def leadsWith : List Char → List Char → Bool
  | [], _ => true
  | _ :: _, [] => false
  | p :: ps, c :: cs => p == c && leadsWith ps cs

/-- Does the pattern occur as a contiguous run somewhere in the text?
This is `String.prototype.includes`, character-exact. -/
def hasSub : List Char → List Char → Bool
  | p, [] => leadsWith p []
  | p, c :: cs => leadsWith p (c :: cs) || hasSub p cs

/-- `s.includes(pat)` on Lean strings. -/
def strIncludes (s pat : String) : Bool :=
  hasSub pat.toList s.toList

/-- `trim` on a character list: drop leading whitespace, then trailing
whitespace (via reversal). -/
def trimList (s : List Char) : List Char :=
  ((s.dropWhile isJsSpace).reverse.dropWhile isJsSpace).reverse

/-- `s.trim()`. -/
def jsTrim (s : String) : String :=
  ⟨trimList s.toList⟩

/-- `s.toLowerCase()` (ASCII case folding; the classifier keywords and all
claim inputs are ASCII). -/
def jsToLower (s : String) : String :=
  ⟨s.toList.map Char.toLower⟩

/-- Numeric value of a run of decimal digits. -/
def natOfDigits (ds : List Char) : Nat :=
  ds.foldl (fun a c => a * 10 + (c.toNat - 48)) 0

/-- Longest leading run of decimal digits, and the rest. -/
def digitsSpan : List Char → List Char × List Char
  | [] => ([], [])
  | c :: cs =>
    if c.isDigit then
      let r := digitsSpan cs
      (c :: r.1, r.2)
    else ([], c :: cs)

/-- The optional `(\.\d+)?` fraction at the head of the text: the digit run
after a dot, when the dot is immediately followed by at least one digit. -/
def fracSpan : List Char → List Char
  | '.' :: c :: cs => if c.isDigit then c :: (digitsSpan cs).1 else []
  | _ => []

/-- Attempt to match the regex `-?\d+(\.\d+)?` anchored at the head of the
text, returning (sign, integer digits, fraction digits). -/
def matchNumAt : List Char → Option (Bool × List Char × List Char)
  | [] => none
  | '-' :: c :: cs =>
    if c.isDigit then
      let d := digitsSpan cs
      some (true, c :: d.1, fracSpan d.2)
    else none
  | c :: cs =>
    if c.isDigit then
      let d := digitsSpan cs
      some (false, c :: d.1, fracSpan d.2)
    else none

/-- Leftmost match of the regex `-?\d+(\.\d+)?` in the text (what
`normalized.match` finds with that regex). -/
def firstNumMatch : List Char → Option (Bool × List Char × List Char)
  | [] => none
  | c :: cs =>
    match matchNumAt (c :: cs) with
    | some m => some m
    | none => firstNumMatch cs

/-- Rational value of a matched numeric literal `[-]int[.frac]`
(`Number(match[0])`, exact instead of double-rounded):
`int.frac = (int * 10^k + frac) / 10^k` where `k` is the fraction length. -/
def qOfMatch (m : Bool × List Char × List Char) : ℚ :=
  let den : Nat := 10 ^ m.2.2.length
  let mag : ℚ := mkRat (natOfDigits m.2.1 * den + natOfDigits m.2.2) den
  if m.1 then -mag else mag

/-- `asNumberOrNull` (src/routes/ai.ts:113): best-effort numeric coercion.
A finite number passes through; a string is trimmed, stripped of comma
thousands separators, and searched for the first `-?\d+(\.\d+)?` match;
everything else (including `NaN`/infinities, booleans, objects, arrays,
`null`, `undefined`) yields `none`.  The matched literal is evaluated
exactly in ℚ, so the source's trailing `Number.isFinite` re-check (which
in JS only fails on astronomically long digit strings that overflow a
double) always passes in this model. -/
def asNumberOrNull : JsValue → Option ℚ
  | .num n => if n.isFinite then some n.toQ else none
  | .str x =>
    let s := jsTrim x
    if s = "" then none
    else
      let normalized := s.toList.filter (fun c => c ≠ ',')
      match firstNumMatch normalized with
      | none => none
      | some m => some (qOfMatch m)
  | _ => none

example : asNumberOrNull (.num (.fin 12)) = some 12 := by decide
example : asNumberOrNull (.str "12") = some 12 := by decide
example : asNumberOrNull (.str "$12.50") = some (mkRat 25 2) := by decide
example : asNumberOrNull (.str "12,500.00") = some 12500 := by decide
example : asNumberOrNull (.str "VAT 11%") = some 11 := by decide
example : asNumberOrNull (.str "") = none := by decide
example : asNumberOrNull .null = none := by decide
example : asNumberOrNull .undef = none := by decide
example : asNumberOrNull (.str "abc") = none := by decide
example : asNumberOrNull (.str "LBP 250000") = some 250000 := by decide
example : asNumberOrNull (.str "-3.25") = some (mkRat (-13) 4) := by decide

/-- `normalizePaymentMethod` (src/routes/ai.ts:85): `!raw` is true for both
`null` (modelled `none`) and the empty string, so both return `undefined`
(modelled `none`); otherwise the lowercased, trimmed text is scanned for
keywords in source order, falling back to `"other"`. -/
def normalizePaymentMethod (raw : Option String) : Option String :=
  match raw with
  | none => none
  | some r =>
    if r = "" then none
    else
      if strIncludes (jsTrim (jsToLower r)) "cash" then some "cash"
      else if strIncludes (jsTrim (jsToLower r)) "credit" then some "credit_card"
      else if strIncludes (jsTrim (jsToLower r)) "debit" then some "debit_card"
      else if strIncludes (jsTrim (jsToLower r)) "apple pay"
          || strIncludes (jsTrim (jsToLower r)) "google pay"
          || strIncludes (jsTrim (jsToLower r)) "wallet"
          || strIncludes (jsTrim (jsToLower r)) "mobile" then some "mobile_payment"
      else if strIncludes (jsTrim (jsToLower r)) "bank"
          || strIncludes (jsTrim (jsToLower r)) "transfer" then some "bank_transfer"
      else some "other"

example : normalizePaymentMethod (some "Credit card (debit backup)") = some "credit_card" := by decide
example : normalizePaymentMethod (some "  CASH  ") = some "cash" := by decide
example : normalizePaymentMethod (some "visa") = some "other" := by decide
example : normalizePaymentMethod (some "") = none := by decide
example : normalizePaymentMethod none = none := by decide
example : normalizePaymentMethod (some "Apple Pay") = some "mobile_payment" := by decide

/-- A raw line item of the model's JSON (`ReceiptLineItem` in the source):
the numeric fields are declared `number | null` but, before defensive
normalization, can hold any JSON value, which `JsValue` captures. -/
structure ReceiptLineItem where
  description : Option String
  quantity : JsValue
  unit_price : JsValue
  total : JsValue
deriving DecidableEq

/-- `ReceiptAnalysis` (src:26): the receipt shape the model is asked to
return, with loosely-typed numeric fields. -/
structure ReceiptAnalysis where
  merchant_name : Option String
  merchant_address : Option String
  purchase_date : Option String
  subtotal : JsValue
  tax : JsValue
  total : JsValue
  currency : Option String
  line_items : List ReceiptLineItem
  notes : Option String
  category : Option String
  payment_method : Option String
deriving DecidableEq

/-- `SplitExtractedItem` (src:60). -/
structure SplitExtractedItem where
  id : String
  name : String
  qty : Option JsValue
  unitPrice : Option JsValue
  total : JsNum
  assignedTo : List String
deriving DecidableEq

/-- `SplitExtractedReceipt` (src:69). -/
structure SplitExtractedReceipt where
  merchant : Option String
  date : Option String
  currency : Option String
  subtotal : Option ℚ
  taxAmount : Option JsValue
  totalAmount : Option JsValue
  items : List SplitExtractedItem
deriving DecidableEq

/-- `safeQty` inside `toSplitReceipt` (src:172): the model's quantity when
it is a finite number, else 1 when a finite unit price exists, else null. -/
def safeQty (li : ReceiptLineItem) : Option ℚ :=
  match finQ li.quantity with
  | some q => some q
  | none =>
    match finQ li.unit_price with
    | some _ => some 1
    | none => none

/-- `computed` inside `toSplitReceipt` (src:179): `safeQty * unit_price`
when both are finite numbers, else null. -/
def computedTotal (li : ReceiptLineItem) : Option ℚ :=
  match safeQty li, finQ li.unit_price with
  | some q, some p => some (q * p)
  | _, _ => none

/-- `modelTotal ?? computed ?? (finite unit price, else 0)` (src:188),
before the final finiteness guard.  `??` is nullish coalescing, so a
non-finite or even non-numeric model total passes through here. -/
def rawItemTotal (li : ReceiptLineItem) : JsValue :=
  match jsCoalesceU li.total with
  | some v => v
  | none =>
    match computedTotal li with
    | some c => .num (.fin c)
    | none =>
      match finQ li.unit_price with
      | some p => .num (.fin p)
      | none => .num (.fin 0)

/-- `Number.isFinite(total) ? total : 0` (src:199): non-finite numbers and
non-numbers both fail `Number.isFinite` and collapse to 0. -/
def guardFinite (v : JsValue) : JsNum :=
  match v with
  | .num n => if n.isFinite then n else .fin 0
  | _ => .fin 0

/-- The final per-item total stored in the split view. -/
def itemFinalTotal (li : ReceiptLineItem) : JsNum :=
  guardFinite (rawItemTotal li)

/-- `generateId` (src:81) draws from `Math.random` and is nondeterministic;
it is modelled positionally.  No claim depends on id contents. -/
def generateId (k : Nat) : String :=
  "id" ++ toString k

/-- One mapped split item (src:194): name falls back to "Item" for a
missing or empty description (`li.description || "Item"`), `qty` and
`unitPrice` are the nullish-coalesced raw fields, and the total is the
reconciled, finiteness-guarded one. -/
def mkSplitItem (k : Nat) (li : ReceiptLineItem) : SplitExtractedItem :=
  { id := generateId k
    name :=
      match li.description with
      | some d => if d = "" then "Item" else d
      | none => "Item"
    qty := jsCoalesceU li.quantity
    unitPrice := jsCoalesceU li.unit_price
    total := itemFinalTotal li
    assignedTo := [] }

/-- The mapped item list (src:164). -/
def toSplitItems (p : ReceiptAnalysis) : List SplitExtractedItem :=
  p.line_items.enum.map (fun e => mkSplitItem e.1 e.2)

/-- `subtotalFromItems` (src:204): sum of the item totals, with the
reduce's own finiteness re-check. -/
def subtotalFromItems (p : ReceiptAnalysis) : ℚ :=
  (toSplitItems p).foldl (fun s i => s + (if i.total.isFinite then i.total.toQ else 0)) 0

/-- `Math.max(0, x)` on finite values. -/
def jsMax0 (x : ℚ) : ℚ :=
  if 0 ≤ x then x else 0

/-- `derivedSubtotal` (src:214): model subtotal if finite, else the items
sum if positive, else `max(0, total - tax)` when both total and tax are
finite numbers, else undefined. -/
def derivedSubtotal (p : ReceiptAnalysis) : Option ℚ :=
  match finQ p.subtotal with
  | some q => some q
  | none =>
    if subtotalFromItems p > 0 then some (subtotalFromItems p)
    else
      match finQ p.total, finQ p.tax with
      | some t, some x => some (jsMax0 (t - x))
      | _, _ => none

/-- The synthesized "Items Subtotal" placeholder (src:231). -/
def placeholderItem (d : ℚ) : SplitExtractedItem :=
  { id := generateId 0
    name := "Items Subtotal"
    qty := none
    unitPrice := none
    total := .fin d
    assignedTo := [] }

/-- `finalItems` (src:227): the mapped items when any exist, else the
placeholder when a positive derived subtotal exists, else the (empty)
mapped item list. -/
def finalItems (p : ReceiptAnalysis) : List SplitExtractedItem :=
  if (toSplitItems p).length > 0 then toSplitItems p
  else
    match derivedSubtotal p with
    | some d => if d > 0 then [placeholderItem d] else toSplitItems p
    | none => toSplitItems p

/-- `toSplitReceipt` (src:163). -/
def toSplitReceipt (p : ReceiptAnalysis) : SplitExtractedReceipt :=
  { merchant := p.merchant_name
    date := p.purchase_date
    currency := p.currency
    subtotal := derivedSubtotal p
    taxAmount := jsCoalesceU p.tax
    totalAmount := jsCoalesceU p.total
    items := finalItems p }

/-- Length of the fence-regex match anchored here, if any.  The regex
alternation tries a literal triple-backtick-json with an optional trailing
newline first, then an optional leading newline before a bare triple
backtick, each longest-first (greedy optional). -/
def fenceLenAt (cs : List Char) : Option Nat :=
  if leadsWith ("```json\n".toList) cs then some 8
  else if leadsWith ("```json".toList) cs then some 7
  else if leadsWith ("\n```".toList) cs then some 4
  else if leadsWith ("```".toList) cs then some 3
  else none

/-- Global regex replacement: scan left to right, deleting each fence
match.  Fuel is the text length; every step consumes at least one
character, so the fuel never runs out. -/
def stripFencesAux : Nat → List Char → List Char
  | 0, cs => cs
  | _ + 1, [] => []
  | fuel + 1, c :: cs =>
    match fenceLenAt (c :: cs) with
    | some k => stripFencesAux fuel (List.drop k (c :: cs))
    | none => c :: stripFencesAux fuel cs

/-- `cleanJsonMaybe` (src:105): delete markdown code fences, then trim. -/
def cleanJsonMaybe (s : String) : String :=
  jsTrim ⟨stripFencesAux s.toList.length s.toList⟩

example : cleanJsonMaybe "```json\nabc\n```" = "abc" := by decide
example : cleanJsonMaybe "  abc " = "abc" := by decide

/-- One multer upload: its buffer (already base64-rendered) and declared
media type. -/
structure UploadedFile where
  contentBase64 : String
  mimetype : String
deriving DecidableEq

/-- The request surface `extractImageDataUrl` looks at (src:139):
`req.body.imageBase64`, `req.files`, `req.file`. -/
structure AnalyzeRequest where
  imageBase64 : Option String
  files : List UploadedFile
  file : Option UploadedFile
deriving DecidableEq

/-- Data-URL assembly for an uploaded file (src:151). -/
def fileDataUrl (f : UploadedFile) : String :=
  "data:" ++ f.mimetype ++ ";base64," ++ f.contentBase64

/-- The file branch of `extractImageDataUrl`: `files[0] ?? req.file`. -/
def extractFromFiles (req : AnalyzeRequest) : Option String :=
  match req.files.head? with
  | some f => some (fileDataUrl f)
  | none =>
    match req.file with
    | some f => some (fileDataUrl f)
    | none => none

/-- `extractImageDataUrl` (src:139): a truthy `imageBase64` is used as-is
when it is already a data-URL and gets the default `image/jpeg` marker
otherwise; an empty `imageBase64` is falsy and falls through to the
uploaded files; with no source at all the result is null. -/
def extractImageDataUrl (req : AnalyzeRequest) : Option String :=
  match req.imageBase64 with
  | some raw =>
    if raw = "" then extractFromFiles req
    else if leadsWith ("data:".toList) raw.toList then some raw
    else some ("data:image/jpeg;base64," ++ raw)
  | none => extractFromFiles req

/-- `AIExtractedItem` (src:40). -/
structure AIExtractedItem where
  name : Option String
  quantity : Option JsValue
  unit_price : Option JsValue
  total : Option JsValue
deriving DecidableEq

/-- `AIExtractedData` (src:47). -/
structure AIExtractedData where
  vendor_name : Option String
  purchase_date : Option String
  total_amount : Option JsValue
  tax_amount : Option JsValue
  currency : Option String
  payment_method : Option String
  suggested_category : Option String
  items : List AIExtractedItem
  confidence : ℚ
deriving DecidableEq

/-- `Number(process.env.AI_DEFAULT_CONFIDENCE || 0.85)` (src:17), at its
default; the environment override is ambient configuration outside the
normalization logic. -/
def DEFAULT_CONFIDENCE : ℚ :=
  mkRat 85 100

/-- The flat response view (src:350). -/
def toResponseData (p : ReceiptAnalysis) : AIExtractedData :=
  { vendor_name := p.merchant_name
    purchase_date := p.purchase_date
    total_amount := jsCoalesceU p.total
    tax_amount := jsCoalesceU p.tax
    currency := p.currency
    payment_method := normalizePaymentMethod p.payment_method
    suggested_category := p.category
    items := p.line_items.map (fun li =>
      { name := li.description
        quantity := jsCoalesceU li.quantity
        unit_price := jsCoalesceU li.unit_price
        total := jsCoalesceU li.total })
    confidence := DEFAULT_CONFIDENCE }

/-- A coerced `number | null` field as a JS value. -/
def jsOfOptQ : Option ℚ → JsValue
  | some q => .num (.fin q)
  | none => .null

/-- The defensive normalization applied after JSON parsing (src:316-326):
`asNumberOrNull` over subtotal/tax/total and every line-item numeric
field, and `description ?? ""`. -/
def normalizeParsed (p : ReceiptAnalysis) : ReceiptAnalysis :=
  { p with
    subtotal := jsOfOptQ (asNumberOrNull p.subtotal)
    tax := jsOfOptQ (asNumberOrNull p.tax)
    total := jsOfOptQ (asNumberOrNull p.total)
    line_items := p.line_items.map (fun li =>
      { description := some (li.description.getD "")
        quantity := jsOfOptQ (asNumberOrNull li.quantity)
        unit_price := jsOfOptQ (asNumberOrNull li.unit_price)
        total := jsOfOptQ (asNumberOrNull li.total) }) }

/-- `analyzeReceiptFromDataUrl` (src:252), from the point the external
service has answered.  The Groq call and `JSON.parse` are external
effects: the model reply enters as `content` (`none` for a missing
message, and the source treats an empty string as missing too, via
`!rawContent`), and JSON parsing enters as an abstract `parse` function
whose error is the thrown SyntaxError's message.  A throw is modelled as
`Except.error`. -/
def analyzeReceiptFromDataUrl (parse : String → Except String ReceiptAnalysis)
    (content : Option String) : Except String (ReceiptAnalysis × String) :=
  match content with
  | none => .error "Empty response from Groq"
  | some raw =>
    if raw = "" then .error "Empty response from Groq"
    else
      match parse (cleanJsonMaybe raw) with
      | .error msg => .error msg
      | .ok parsed => .ok (normalizeParsed parsed, raw)

/-- The JSON body the endpoint sends back, with every field that any
branch can set; absent fields are `none`. -/
structure ResponseBody where
  success : Bool
  error : Option String
  details : Option String
  data : Option AIExtractedData
  split_receipt : Option SplitExtractedReceipt
  raw_text : Option String
deriving DecidableEq

/-- An endpoint outcome: HTTP status, JSON body, and whether the external
vision service was called while producing it. -/
structure HandlerOutcome where
  status : Nat
  body : ResponseBody
  groqCalled : Bool
deriving DecidableEq

/-- The POST /ai/receipts/analyze-image handler (src:331).  The branch
order mirrors the source: missing image short-circuits to 400 before the
Groq call; any throw from the analysis (empty upstream reply or JSON
parse failure) is caught and answered with the fixed 500 body whose
`details` is the error message; otherwise the 200 body carries both
views and the raw model text.  The handler is a total function: the
try/catch means no exception escapes. -/
def handleAnalyzeImage (parse : String → Except String ReceiptAnalysis)
    (content : Option String) (req : AnalyzeRequest) : HandlerOutcome :=
  match extractImageDataUrl req with
  | none =>
    { status := 400
      body := { success := false, error := some "Image file is required",
                details := none, data := none, split_receipt := none, raw_text := none }
      groqCalled := false }
  | some _ =>
    match analyzeReceiptFromDataUrl parse content with
    | .error msg =>
      { status := 500
        body := { success := false, error := some "Failed to analyze receipt image",
                  details := some msg, data := none, split_receipt := none, raw_text := none }
        groqCalled := true }
    | .ok pr =>
      { status := 200
        body := { success := true, error := none, details := none,
                  data := some (toResponseData pr.1),
                  split_receipt := some (toSplitReceipt pr.1),
                  raw_text := some pr.2 }
        groqCalled := true }

/-! ### Substring facts: trimming cannot change keyword containment -/

theorem nonspace_beq_space (p c : Char) (hp : isJsSpace p = false)
    (hc : isJsSpace c = true) : (p == c) = false := by
  cases hbc : p == c with
  | false => rfl
  | true =>
    have h : p = c := beq_iff_eq.mp hbc
    rw [h, hc] at hp
    exact Bool.noConfusion hp

theorem hasSub_dropWhile (p : Char) (ps : List Char) (hp : isJsSpace p = false) :
    ∀ s : List Char, hasSub (p :: ps) (s.dropWhile isJsSpace) = hasSub (p :: ps) s := by
  intro s
  induction s with
  | nil => rfl
  | cons c cs ih =>
    rw [List.dropWhile_cons]
    cases hc : isJsSpace c with
    | false => simp [hc]
    | true =>
      simp only [hc, if_true]
      rw [ih]
      have hl : leadsWith (p :: ps) (c :: cs) = false := by
        show (p == c && leadsWith ps cs) = false
        rw [nonspace_beq_space p c hp hc, Bool.false_and]
      show hasSub (p :: ps) cs = (leadsWith (p :: ps) (c :: cs) || hasSub (p :: ps) cs)
      rw [hl, Bool.false_or]

theorem leadsWith_iff (p : List Char) :
    ∀ s, leadsWith p s = true ↔ ∃ t, s = p ++ t := by
  induction p with
  | nil =>
    intro s
    constructor
    · intro _; exact ⟨s, rfl⟩
    · intro _; rfl
  | cons a as ih =>
    intro s
    cases s with
    | nil =>
      constructor
      · intro h; exact absurd h (by simp [leadsWith])
      · rintro ⟨t, ht⟩; exact absurd ht (by simp)
    | cons c cs =>
      constructor
      · intro h
        have h2 : (a == c) = true ∧ leadsWith as cs = true := by
          have : (a == c && leadsWith as cs) = true := h
          exact Bool.and_eq_true_iff.mp this
        obtain ⟨t, ht⟩ := (ih cs).mp h2.2
        refine ⟨t, ?_⟩
        rw [← beq_iff_eq.mp h2.1, ht, List.cons_append]
      · rintro ⟨t, ht⟩
        rw [List.cons_append] at ht
        injection ht with h1 h2
        show (a == c && leadsWith as cs) = true
        rw [h1, beq_self_eq_true, Bool.true_and]
        exact (ih cs).mpr ⟨t, h2⟩

theorem hasSub_iff (p : List Char) :
    ∀ s, hasSub p s = true ↔ ∃ l t, s = l ++ p ++ t := by
  intro s
  induction s with
  | nil =>
    rw [show hasSub p [] = leadsWith p [] from rfl, leadsWith_iff]
    constructor
    · rintro ⟨t, ht⟩; exact ⟨[], t, by simpa using ht⟩
    · rintro ⟨l, t, ht⟩
      have h1 : l ++ p = [] ∧ t = [] := List.append_eq_nil.mp ht.symm
      have h2 : l = [] ∧ p = [] := List.append_eq_nil.mp h1.1
      exact ⟨[], by simp [h2.2]⟩
  | cons c cs ih =>
    rw [show hasSub p (c :: cs) = (leadsWith p (c :: cs) || hasSub p cs) from rfl]
    rw [Bool.or_eq_true, leadsWith_iff, ih]
    constructor
    · rintro (⟨t, ht⟩ | ⟨l, t, ht⟩)
      · exact ⟨[], t, by simpa using ht⟩
      · exact ⟨c :: l, t, by simp [ht]⟩
    · rintro ⟨l, t, ht⟩
      cases l with
      | nil => exact Or.inl ⟨t, by simpa using ht⟩
      | cons x l2 =>
        right
        have h2 : cs = l2 ++ p ++ t := by
          have : c :: cs = x :: (l2 ++ p ++ t) := by simpa using ht
          injection this with hx hy
        exact ⟨l2, t, h2⟩

theorem hasSub_reverse (p s : List Char) :
    hasSub p.reverse s.reverse = hasSub p s := by
  cases h : hasSub p s with
  | true =>
    obtain ⟨l, t, ht⟩ := (hasSub_iff p s).mp h
    apply (hasSub_iff p.reverse s.reverse).mpr
    exact ⟨t.reverse, l.reverse, by rw [ht]; simp⟩
  | false =>
    cases h2 : hasSub p.reverse s.reverse with
    | false => rfl
    | true =>
      obtain ⟨l, t, ht⟩ := (hasSub_iff p.reverse s.reverse).mp h2
      have hs : s = t.reverse ++ p ++ l.reverse := by
        have h3 := congrArg List.reverse ht
        simpa using h3
      have h4 := (hasSub_iff p s).mpr ⟨t.reverse, l.reverse, hs⟩
      rw [h] at h4
      exact Bool.noConfusion h4

theorem hasSub_trimList (p q : Char) (ps qs : List Char)
    (hrev : (p :: ps).reverse = q :: qs)
    (hp : isJsSpace p = false) (hq : isJsSpace q = false) (s : List Char) :
    hasSub (p :: ps) (trimList s) = hasSub (p :: ps) s := by
  unfold trimList
  rw [← hasSub_dropWhile p ps hp s]
  have e1 : hasSub (p :: ps) (((s.dropWhile isJsSpace).reverse.dropWhile isJsSpace).reverse)
      = hasSub ((p :: ps).reverse) ((s.dropWhile isJsSpace).reverse.dropWhile isJsSpace) := by
    have h := hasSub_reverse ((p :: ps).reverse) ((s.dropWhile isJsSpace).reverse.dropWhile isJsSpace)
    rwa [List.reverse_reverse] at h
  rw [e1, hrev, hasSub_dropWhile q qs hq ((s.dropWhile isJsSpace).reverse), ← hrev]
  exact hasSub_reverse (p :: ps) (s.dropWhile isJsSpace)

/-- Trimming a string cannot create or destroy an occurrence of a keyword
whose first and last characters are not whitespace. -/
theorem strIncludes_jsTrim (v pat : String) (p q : Char) (ps qs : List Char)
    (h1 : pat.toList = p :: ps) (h2 : pat.toList.reverse = q :: qs)
    (hp : isJsSpace p = false) (hq : isJsSpace q = false) :
    strIncludes (jsTrim v) pat = strIncludes v pat := by
  show hasSub pat.toList (jsTrim v).toList = hasSub pat.toList v.toList
  have h3 : (jsTrim v).toList = trimList v.toList := rfl
  rw [h3, h1]
  exact hasSub_trimList p q ps qs (by rw [← h1, h2]) hp hq v.toList

/-! ### Claim-side definitions (worded from the spec, for comparison) -/

/-- Claim C8's classifier: case-insensitive first-match-wins keyword
containment over the free text (no mention of trimming; trimming is
proved irrelevant via `strIncludes_jsTrim`). -/
def claimClassify (s : String) : String :=
  if strIncludes (jsToLower s) "cash" then "cash"
  else if strIncludes (jsToLower s) "credit" then "credit_card"
  else if strIncludes (jsToLower s) "debit" then "debit_card"
  else if strIncludes (jsToLower s) "apple pay" || strIncludes (jsToLower s) "google pay"
      || strIncludes (jsToLower s) "wallet" || strIncludes (jsToLower s) "mobile" then "mobile_payment"
  else if strIncludes (jsToLower s) "bank" || strIncludes (jsToLower s) "transfer" then "bank_transfer"
  else "other"

/-- Claim C1's "sum of all finalized item totals" (no finiteness guard in
the wording; the guard in the source's reduce is proved redundant). -/
def claimItemsSum (p : ReceiptAnalysis) : ℚ :=
  (toSplitItems p).foldl (fun s i => s + i.total.toQ) 0

/-- Claim C1's subtotal priority order, as worded: finite model subtotal,
else positive items sum, else `max 0 (total - tax)` when both finite,
else absent. -/
def claimSubtotal (p : ReceiptAnalysis) : Option ℚ :=
  match finQ p.subtotal with
  | some q => some q
  | none =>
    if claimItemsSum p > 0 then some (claimItemsSum p)
    else
      match finQ p.total, finQ p.tax with
      | some t, some x => some (max 0 (t - x))
      | _, _ => none

/-- Claim C7's characterization of the emitted item list: a non-empty
reconciled list is used as-is; an empty one gets the single placeholder
exactly when a positive derived subtotal exists. -/
def claimFinalItems (p : ReceiptAnalysis) : List SplitExtractedItem :=
  if toSplitItems p = [] then
    match derivedSubtotal p with
    | some d => if 0 < d then [placeholderItem d] else []
    | none => []
  else toSplitItems p

/-- A field in the image of `asNumberOrNull`: null or a finite number. -/
def isNumOrNull : JsValue → Bool
  | .null => true
  | .num n => n.isFinite
  | _ => false

/-- Claim C2's precondition: all three numeric fields of the line item
have been through numeric coercion. -/
def isCoerced (li : ReceiptLineItem) : Bool :=
  isNumOrNull li.quantity && isNumOrNull li.unit_price && isNumOrNull li.total

/-- Claim C2's final-total priority, as worded: finite model total, else
effective-quantity times unit price, else the unit price alone if finite,
else 0 (the effective quantity being the source's `safeQty`). -/
def claimItemTotal (li : ReceiptLineItem) : ℚ :=
  match finQ li.total with
  | some t => t
  | none =>
    match safeQty li, finQ li.unit_price with
    | some q, some p => q * p
    | _, _ =>
      match finQ li.unit_price with
      | some p => p
      | none => 0

/-- Claim C3's notion of a response body "including" the raw model text:
the `raw_text` field carries it, or it occurs inside the error or details
strings. -/
def bodyMentions (b : ResponseBody) (raw : String) : Bool :=
  b.raw_text == some raw
    || strIncludes (b.error.getD "") raw
    || strIncludes (b.details.getD "") raw

/-! ### Bridging lemmas -/

theorem ite_isFinite_toQ (n : JsNum) :
    (if n.isFinite then n.toQ else 0) = n.toQ := by
  cases n <;> rfl

theorem foldl_guard_eq (l : List SplitExtractedItem) :
    ∀ a : ℚ, l.foldl (fun s i => s + (if i.total.isFinite then i.total.toQ else 0)) a
      = l.foldl (fun s i => s + i.total.toQ) a := by
  induction l with
  | nil => intro a; rfl
  | cons x xs ih =>
    intro a
    simp only [List.foldl_cons]
    rw [ite_isFinite_toQ x.total]
    exact ih _

theorem subtotalFromItems_eq_claim (p : ReceiptAnalysis) :
    subtotalFromItems p = claimItemsSum p := by
  unfold subtotalFromItems claimItemsSum
  exact foldl_guard_eq (toSplitItems p) 0

theorem jsMax0_eq_max (x : ℚ) : jsMax0 x = max 0 x := by
  unfold jsMax0
  rw [max_def]

theorem derivedSubtotal_eq_claim (p : ReceiptAnalysis) :
    derivedSubtotal p = claimSubtotal p := by
  unfold derivedSubtotal claimSubtotal
  rw [subtotalFromItems_eq_claim p]
  simp only [jsMax0_eq_max]

theorem guardFinite_isFinite (v : JsValue) : (guardFinite v).isFinite = true := by
  cases v with
  | num n => cases n <;> rfl
  | str s => rfl
  | boolean b => rfl
  | null => rfl
  | undef => rfl
  | obj => rfl
  | arr => rfl

theorem finalItems_eq_claim (p : ReceiptAnalysis) :
    finalItems p = claimFinalItems p := by
  unfold finalItems claimFinalItems
  cases h : toSplitItems p with
  | nil => simp
  | cons x xs => simp

theorem isNumOrNull_cases (v : JsValue) (h : isNumOrNull v = true) :
    v = .null ∨ ∃ q : ℚ, v = .num (.fin q) := by
  cases v with
  | null => exact Or.inl rfl
  | num n =>
    cases n with
    | fin q => exact Or.inr ⟨q, rfl⟩
    | nan => exact absurd h (by simp [isNumOrNull, JsNum.isFinite])
    | posInf => exact absurd h (by simp [isNumOrNull, JsNum.isFinite])
    | negInf => exact absurd h (by simp [isNumOrNull, JsNum.isFinite])
  | str s => exact absurd h (by simp [isNumOrNull])
  | boolean b => exact absurd h (by simp [isNumOrNull])
  | undef => exact absurd h (by simp [isNumOrNull])
  | obj => exact absurd h (by simp [isNumOrNull])
  | arr => exact absurd h (by simp [isNumOrNull])

/-- Defensive normalization really does establish claim C2's
precondition: every numeric field it produces is null or finite. -/
theorem normalizeParsed_items_coerced (p : ReceiptAnalysis) (li : ReceiptLineItem)
    (h : li ∈ (normalizeParsed p).line_items) : isCoerced li = true := by
  obtain ⟨x, _, hx⟩ := List.mem_map.mp h
  have hfield : ∀ o : Option ℚ, isNumOrNull (jsOfOptQ o) = true := by
    intro o; cases o <;> rfl
  rw [← hx]
  show (isNumOrNull (jsOfOptQ (asNumberOrNull x.quantity))
      && isNumOrNull (jsOfOptQ (asNumberOrNull x.unit_price))
      && isNumOrNull (jsOfOptQ (asNumberOrNull x.total))) = true
  rw [hfield, hfield, hfield]
  rfl

/-! ### Concrete fixtures -/

/-- A receipt with every field null/empty, to be specialized. -/
def emptyReceipt : ReceiptAnalysis :=
  { merchant_name := none, merchant_address := none, purchase_date := none
    subtotal := .null, tax := .null, total := .null, currency := none
    line_items := [], notes := none, category := none, payment_method := none }

/-- Two items with model-reported totals 10 and 15, no model subtotal. -/
def itemsSum25Receipt : ReceiptAnalysis :=
  { emptyReceipt with line_items :=
      [ { description := some "A", quantity := .null, unit_price := .null, total := .num (.fin 10) }
      , { description := some "B", quantity := .null, unit_price := .null, total := .num (.fin 15) } ] }

/-- Claim C5's receipt: model subtotal 0, no items, total 30, tax 5. -/
def zeroSubtotalReceipt : ReceiptAnalysis :=
  { emptyReceipt with subtotal := .num (.fin 0), tax := .num (.fin 5), total := .num (.fin 30) }

/-- Zero items, model subtotal 40. -/
def sub40Receipt : ReceiptAnalysis :=
  { emptyReceipt with subtotal := .num (.fin 40) }

/-- The inconsistent item of claim C2: quantity 2, unit price 3, model
total 10. -/
def inconsistentItem : ReceiptLineItem :=
  { description := some "X", quantity := .num (.fin 2), unit_price := .num (.fin 3), total := .num (.fin 10) }

/-- The quantity-less item of claim C2: unit price 1.5 (= 3/2), no
quantity, no model total. -/
def sodaItem : ReceiptLineItem :=
  { description := some "Soda", quantity := .null, unit_price := .num (.fin (mkRat 3 2)), total := .null }

/-! ### Claims -/

/-- **C1.** For every parsed receipt, the subtotal of the split view is
chosen by this priority order, first applicable wins: the model-reported
subtotal if it is a finite number; else the sum of the finalized item
totals if that sum is greater than zero; else (model total minus model
tax) clamped to a minimum of zero, only when both total and tax are
finite; else the subtotal is absent.  In particular, items summing to 25
with no model subtotal give derived subtotal 25. -/
theorem c1_subtotal_priority :
    (∀ p : ReceiptAnalysis, (toSplitReceipt p).subtotal = claimSubtotal p)
    ∧ (toSplitReceipt itemsSum25Receipt).subtotal = some 25 := by
  constructor
  · intro p
    show derivedSubtotal p = claimSubtotal p
    exact derivedSubtotal_eq_claim p
  · show derivedSubtotal itemsSum25Receipt = some 25
    have hitems : toSplitItems itemsSum25Receipt =
        [ { id := "id0", name := "A", qty := none, unitPrice := none,
            total := .fin 10, assignedTo := [] }
        , { id := "id1", name := "B", qty := none, unitPrice := none,
            total := .fin 15, assignedTo := [] } ] := by decide
    have hsum : subtotalFromItems itemsSum25Receipt = 25 := by
      unfold subtotalFromItems
      rw [hitems]
      norm_num [List.foldl, JsNum.isFinite, JsNum.toQ]
    show (if subtotalFromItems itemsSum25Receipt > 0
          then some (subtotalFromItems itemsSum25Receipt)
          else match finQ itemsSum25Receipt.total, finQ itemsSum25Receipt.tax with
               | some t, some x => some (jsMax0 (t - x))
               | _, _ => none) = some 25
    rw [hsum, if_pos (by norm_num : (25 : ℚ) > 0)]

/-- **C5 counterexample.** The receipt with model subtotal 0, no items,
model total 30 and model tax 5 does *not* get derived subtotal 25: 0 is a
finite number, so priority 1 fires and the total-minus-tax fallback is
never reached. -/
theorem c5_zero_subtotal_counterexample :
    (toSplitReceipt zeroSubtotalReceipt).subtotal ≠ some 25 := by decide

/-- **C5 amended.** For the receipt with model subtotal 0, no items,
model total 30 and model tax 5, the derived subtotal is 0 (the finite
model-reported subtotal wins even when it is zero), and consequently no
placeholder item is synthesized. -/
theorem c5_zero_subtotal_amended :
    (toSplitReceipt zeroSubtotalReceipt).subtotal = some 0
    ∧ (toSplitReceipt zeroSubtotalReceipt).items = [] := by decide

/-- **C7.** The split view's item list is the reconciled item list as-is
when that is non-empty; when it is empty it is exactly one synthesized
"Items Subtotal" item carrying the derived subtotal if a positive derived
subtotal exists, and stays empty otherwise.  In particular a model
subtotal of 40 with zero items yields exactly the placeholder with total
40, and no derivable subtotal with zero items yields an empty list. -/
theorem c7_placeholder_characterization :
    (∀ p : ReceiptAnalysis, (toSplitReceipt p).items = claimFinalItems p)
    ∧ (toSplitReceipt sub40Receipt).items = [placeholderItem 40]
    ∧ (toSplitReceipt emptyReceipt).items = [] := by
  refine ⟨fun p => finalItems_eq_claim p, by decide, by decide⟩

/-- **C6.** For every parsed receipt, every item of the split view —
including a synthesized placeholder item — has a total that is present
and is a finite number. -/
theorem c6_split_totals_finite (p : ReceiptAnalysis) (it : SplitExtractedItem)
    (h : it ∈ (toSplitReceipt p).items) : it.total.isFinite = true := by
  have h2 : it ∈ finalItems p := h
  have hmap : it ∈ toSplitItems p → it.total.isFinite = true := by
    intro hm
    unfold toSplitItems at hm
    obtain ⟨e, _, hmk⟩ := List.mem_map.mp hm
    rw [← hmk]
    exact guardFinite_isFinite (rawItemTotal e.2)
  unfold finalItems at h2
  by_cases hl : (toSplitItems p).length > 0
  · rw [if_pos hl] at h2
    exact hmap h2
  · rw [if_neg hl] at h2
    cases hd : derivedSubtotal p with
    | some d =>
      simp only [hd] at h2
      by_cases hdp : d > 0
      · simp only [if_pos hdp, List.mem_singleton] at h2
        rw [h2]
        rfl
      · simp only [if_neg hdp] at h2
        exact hmap h2
    | none =>
      simp only [hd] at h2
      exact hmap h2

/-- The line item of the one-item receipt used to witness C6. -/
def latteItem : ReceiptLineItem :=
  { description := some "Latte", quantity := .null, unit_price := .null, total := .num (.fin 5) }

/-- A one-item receipt used to witness C6. -/
def oneItemReceipt : ReceiptAnalysis :=
  { emptyReceipt with line_items := [latteItem] }

/-- Witness for C6: the single concrete item of `oneItemReceipt`'s split
view has a finite total. -/
theorem c6_split_totals_finite_witness :
    (mkSplitItem 0 latteItem).total.isFinite = true :=
  c6_split_totals_finite oneItemReceipt _ (by decide)

/-- **C2.** For every numerically-coerced raw line item, the final item
total is, in priority order: the model-reported total if finite; else
effective-quantity times unit price (effective quantity = model quantity
if finite, else 1 when a finite unit price exists, else unknown); else
the unit price alone if finite; else 0.  In particular the inconsistent
item (2, 3, 10) yields 10, and the quantity-less item with unit price
3/2 (= 1.5) yields effective quantity 1 and final total 3/2. -/
theorem c2_item_total_priority :
    (∀ li : ReceiptLineItem, isCoerced li = true →
        itemFinalTotal li = .fin (claimItemTotal li))
    ∧ itemFinalTotal inconsistentItem = .fin 10
    ∧ safeQty sodaItem = some 1
    ∧ itemFinalTotal sodaItem = .fin (mkRat 3 2) := by
  refine ⟨?_, by decide, by decide, ?_⟩
  · intro li h
    obtain ⟨d, qv, uv, tv⟩ := li
    simp only [isCoerced, Bool.and_eq_true] at h
    obtain ⟨⟨hq, hu⟩, ht⟩ := h
    rcases isNumOrNull_cases _ hq with rfl | ⟨q, rfl⟩ <;>
      rcases isNumOrNull_cases _ hu with rfl | ⟨u, rfl⟩ <;>
        rcases isNumOrNull_cases _ ht with rfl | ⟨t, rfl⟩ <;>
          simp [itemFinalTotal, rawItemTotal, guardFinite, claimItemTotal,
            computedTotal, safeQty, finQ, jsCoalesceU, JsNum.isFinite, JsNum.toQ]
  · show guardFinite (rawItemTotal sodaItem) = .fin (mkRat 3 2)
    simp [rawItemTotal, computedTotal, safeQty, finQ, jsCoalesceU, guardFinite,
      sodaItem, JsNum.isFinite]

/-- Witness for C2: the coerced inconsistent item satisfies the claimed
priority equation. -/
theorem c2_item_total_priority_witness :
    itemFinalTotal inconsistentItem = .fin (claimItemTotal inconsistentItem) :=
  c2_item_total_priority.1 inconsistentItem (by decide)

/-- **C4.** The numeric coercion function, applied to any input value
(number, string, null, undefined, object, array, or boolean), is a total
function into finite-or-absent values (`Option ℚ`: no `NaN`, no throw),
and on the spec's sample inputs 12, "12", "$12.50", "12,500.00",
"VAT 11%", "", null, undefined, "abc" it returns 12, 12, 12.5, 12500,
11, absent, absent, absent, absent respectively (`mkRat 25 2 = 12.5`,
as the last conjunct records). -/
theorem c4_coercion_total :
    (∀ x : JsValue, asNumberOrNull x = none ∨ ∃ q : ℚ, asNumberOrNull x = some q)
    ∧ asNumberOrNull (.num (.fin 12)) = some 12
    ∧ asNumberOrNull (.str "12") = some 12
    ∧ asNumberOrNull (.str "$12.50") = some (mkRat 25 2)
    ∧ asNumberOrNull (.str "12,500.00") = some 12500
    ∧ asNumberOrNull (.str "VAT 11%") = some 11
    ∧ asNumberOrNull (.str "") = none
    ∧ asNumberOrNull .null = none
    ∧ asNumberOrNull .undef = none
    ∧ asNumberOrNull (.str "abc") = none
    ∧ mkRat 25 2 = (25 : ℚ) / 2 := by
  refine ⟨fun x => ?_, by decide, by decide, by decide, by decide, by decide,
    by decide, by decide, by decide, by decide,
    by norm_num [Rat.mkRat_eq_divInt, Rat.divInt_eq_div]⟩
  cases h : asNumberOrNull x with
  | none => exact Or.inl rfl
  | some q => exact Or.inr ⟨q, rfl⟩

/-- On non-empty input the source classifier agrees with the claim's
trim-free description: trimming cannot affect containment of any of the
keywords, since none of them starts or ends with whitespace. -/
theorem normalizePaymentMethod_nonempty (s : String) (hs : s ≠ "") :
    normalizePaymentMethod (some s) = some (claimClassify s) := by
  have t1 := strIncludes_jsTrim (jsToLower s) "cash" 'c' 'h'
    ['a', 's', 'h'] ['s', 'a', 'c'] (by decide) (by decide) (by decide) (by decide)
  have t2 := strIncludes_jsTrim (jsToLower s) "credit" 'c' 't'
    ['r', 'e', 'd', 'i', 't'] ['i', 'd', 'e', 'r', 'c'] (by decide) (by decide) (by decide) (by decide)
  have t3 := strIncludes_jsTrim (jsToLower s) "debit" 'd' 't'
    ['e', 'b', 'i', 't'] ['i', 'b', 'e', 'd'] (by decide) (by decide) (by decide) (by decide)
  have t4 := strIncludes_jsTrim (jsToLower s) "apple pay" 'a' 'y'
    ['p', 'p', 'l', 'e', ' ', 'p', 'a', 'y'] ['a', 'p', ' ', 'e', 'l', 'p', 'p', 'a']
    (by decide) (by decide) (by decide) (by decide)
  have t5 := strIncludes_jsTrim (jsToLower s) "google pay" 'g' 'y'
    ['o', 'o', 'g', 'l', 'e', ' ', 'p', 'a', 'y'] ['a', 'p', ' ', 'e', 'l', 'g', 'o', 'o', 'g']
    (by decide) (by decide) (by decide) (by decide)
  have t6 := strIncludes_jsTrim (jsToLower s) "wallet" 'w' 't'
    ['a', 'l', 'l', 'e', 't'] ['e', 'l', 'l', 'a', 'w'] (by decide) (by decide) (by decide) (by decide)
  have t7 := strIncludes_jsTrim (jsToLower s) "mobile" 'm' 'e'
    ['o', 'b', 'i', 'l', 'e'] ['l', 'i', 'b', 'o', 'm'] (by decide) (by decide) (by decide) (by decide)
  have t8 := strIncludes_jsTrim (jsToLower s) "bank" 'b' 'k'
    ['a', 'n', 'k'] ['n', 'a', 'b'] (by decide) (by decide) (by decide) (by decide)
  have t9 := strIncludes_jsTrim (jsToLower s) "transfer" 't' 'r'
    ['r', 'a', 'n', 's', 'f', 'e', 'r'] ['e', 'f', 's', 'n', 'a', 'r', 't']
    (by decide) (by decide) (by decide) (by decide)
  show (if s = "" then none
    else if strIncludes (jsTrim (jsToLower s)) "cash" then some "cash"
    else if strIncludes (jsTrim (jsToLower s)) "credit" then some "credit_card"
    else if strIncludes (jsTrim (jsToLower s)) "debit" then some "debit_card"
    else if strIncludes (jsTrim (jsToLower s)) "apple pay"
        || strIncludes (jsTrim (jsToLower s)) "google pay"
        || strIncludes (jsTrim (jsToLower s)) "wallet"
        || strIncludes (jsTrim (jsToLower s)) "mobile" then some "mobile_payment"
    else if strIncludes (jsTrim (jsToLower s)) "bank"
        || strIncludes (jsTrim (jsToLower s)) "transfer" then some "bank_transfer"
    else some "other") = some (claimClassify s)
  unfold claimClassify
  rw [if_neg hs, t1, t2, t3, t4, t5, t6, t7, t8, t9]
  simp only [apply_ite Option.some]

/-- **C8 counterexample.** The empty string is a free-text input that
contains none of the keywords, yet the classifier does not map it to
"other": it maps it to absent (the source's `!raw` guard is truthiness,
not a null check). -/
theorem c8_classifier_counterexample :
    normalizePaymentMethod (some "") ≠ some "other" := by decide

/-- **C8 amended.** The classifier maps every *non-empty* free-text input
case-insensitively by first-match-wins order (cash; credit; debit;
apple pay/google pay/wallet/mobile; bank/transfer; otherwise "other");
null/absent input — and likewise the empty string — maps to absent; and
"Credit card (debit backup)" classifies as credit_card. -/
theorem c8_classifier_amended :
    (∀ s : String, s ≠ "" → normalizePaymentMethod (some s) = some (claimClassify s))
    ∧ normalizePaymentMethod none = none
    ∧ normalizePaymentMethod (some "") = none
    ∧ normalizePaymentMethod (some "Credit card (debit backup)") = some "credit_card" :=
  ⟨normalizePaymentMethod_nonempty, rfl, by decide, by decide⟩

/-- Witness for C8 (amended): a concrete non-empty input agrees with the
claimed first-match-wins classification. -/
theorem c8_classifier_amended_witness :
    normalizePaymentMethod (some "cash back") = some (claimClassify "cash back") :=
  c8_classifier_amended.1 "cash back" (by decide)

/-- **C10.** For the empty-string input (as opposed to null), the
classifier returns absent rather than "other", even though every
non-empty string matching no keyword (i.e. classified "other" by the
first-match-wins order) returns "other". -/
theorem c10_empty_string_absent :
    normalizePaymentMethod (some "") = none
    ∧ normalizePaymentMethod none = none
    ∧ (∀ s : String, s ≠ "" → claimClassify s = "other" →
        normalizePaymentMethod (some s) = some "other") := by
  refine ⟨by decide, rfl, fun s hs ho => ?_⟩
  rw [normalizePaymentMethod_nonempty s hs, ho]

/-- Witness for C10: a concrete keyword-free non-empty string maps to
"other". -/
theorem c10_empty_string_absent_witness :
    normalizePaymentMethod (some "visa") = some "other" :=
  c10_empty_string_absent.2.2 "visa" (by decide) (by decide)

/-- **C9.** If a request supplies neither an `imageBase64` body field nor
an uploaded file, the endpoint responds 400 with
`success:false, error:"Image file is required"` and the external vision
service is not called for that request. -/
theorem c9_missing_image (parse : String → Except String ReceiptAnalysis)
    (content : Option String) (req : AnalyzeRequest)
    (h1 : req.imageBase64 = none) (h2 : req.files = []) (h3 : req.file = none) :
    handleAnalyzeImage parse content req =
      { status := 400
        body := { success := false, error := some "Image file is required",
                  details := none, data := none, split_receipt := none, raw_text := none }
        groqCalled := false } := by
  have he : extractImageDataUrl req = none := by
    unfold extractImageDataUrl extractFromFiles
    rw [h1, h2, h3]
    rfl
  unfold handleAnalyzeImage
  rw [he]

/-- Witness for C9: the concrete empty request gets the 400 body and no
external call. -/
theorem c9_missing_image_witness :
    handleAnalyzeImage (fun _ => Except.error "e") none
        { imageBase64 := none, files := [], file := none } =
      { status := 400
        body := { success := false, error := some "Image file is required",
                  details := none, data := none, split_receipt := none, raw_text := none }
        groqCalled := false } :=
  c9_missing_image (fun _ => Except.error "e") none
    { imageBase64 := none, files := [], file := none } rfl rfl rfl

/-- A parse stub standing for a JSON.parse that rejects the cleaned text
with a SyntaxError whose message does not quote the input. -/
def rejectParse : String → Except String ReceiptAnalysis :=
  fun _ => .error "Unexpected token"

/-- A request carrying a raw-base64 image payload. -/
def rawImageRequest : AnalyzeRequest :=
  { imageBase64 := some "abc", files := [], file := none }

/-- **C3 counterexample.** With non-empty unparseable model text
"not json", the endpoint does answer a structured failure
(success:false plus an error string), but the response does *not*
include the original raw model text anywhere: the `raw_text` field is
only set on the success path, and the catch-all 500 body carries only
the fixed summary and the parser's message. -/
theorem c3_parse_failure_counterexample :
    (handleAnalyzeImage rejectParse (some "not json") rawImageRequest).body.success = false
    ∧ (handleAnalyzeImage rejectParse (some "not json") rawImageRequest).body.error
        = some "Failed to analyze receipt image"
    ∧ bodyMentions (handleAnalyzeImage rejectParse (some "not json") rawImageRequest).body
        "not json" = false := by decide

/-- **C3 amended.** Whenever the external service returns non-empty text
whose fence-stripped form the JSON parser rejects, the endpoint responds
500 with success:false, the fixed error string
"Failed to analyze receipt image" and the parser's message as details —
and no unhandled exception escapes (the handler is total) — but the
original raw model text is not attached to the failure response
(`raw_text` is absent). -/
theorem c3_parse_failure_amended (parse : String → Except String ReceiptAnalysis)
    (req : AnalyzeRequest) (u raw msg : String)
    (hreq : extractImageDataUrl req = some u) (hraw : raw ≠ "")
    (hparse : parse (cleanJsonMaybe raw) = .error msg) :
    handleAnalyzeImage parse (some raw) req =
      { status := 500
        body := { success := false, error := some "Failed to analyze receipt image",
                  details := some msg, data := none, split_receipt := none, raw_text := none }
        groqCalled := true } := by
  simp [handleAnalyzeImage, analyzeReceiptFromDataUrl, hreq, hraw, hparse]

/-- Witness for C3 (amended): the concrete rejecting parse on the
concrete request produces exactly the 500 body with no raw text. -/
theorem c3_parse_failure_amended_witness :
    handleAnalyzeImage rejectParse (some "oops") rawImageRequest =
      { status := 500
        body := { success := false, error := some "Failed to analyze receipt image",
                  details := some "Unexpected token", data := none, split_receipt := none,
                  raw_text := none }
        groqCalled := true } :=
  c3_parse_failure_amended rejectParse rawImageRequest "data:image/jpeg;base64,abc"
    "oops" "Unexpected token" (by decide) (by decide) rfl
